import Mathlib

/-!
Shallow embedding of the CodeScribe MCP protocol engine
(`src/mcp-server.js`) and its token-counting helpers
(`tokenCounters`, `src/unnamed/part_003`).

JavaScript conventions are made explicit:
* an object field that may be `undefined` is an `Option`;
* JS truthiness of an optional string: `none` and `some ""` are falsy
  (a present array is always truthy in JS, so optional arrays are
  matched on presence only);
* a thrown JS error is `Except.error` carrying the message;
* external collaborators (tiktoken, the Anthropic HTTP API, the
  directory scanner, the markdown assembler, the RepoMix integration)
  are parameters of the model, gathered in `Env`;
* `await` points matter only for the concurrency model (`Conc`
  namespace below); the sequential handlers are composed functionally.
-/

namespace McpServer

/-- JS truthiness of an optional string field (`undefined`, `null` and
`""` are falsy; every other string is truthy). -/
def optStrTruthy : Option String → Bool
  | none => false
  | some s => s ≠ ""

/-- A JSON-RPC `id` value as used by this engine: a number or a string.
(An absent id is `Option.none` at the use sites.) -/
inductive JsonId
  | num (n : Int)
  | str (s : String)
deriving DecidableEq, Repr

/-- JS truthiness of an id value: the number `0` and the empty string
are falsy. -/
def JsonId.truthy : JsonId → Bool
  | .num n => n ≠ 0
  | .str s => s ≠ ""

/-- The shared mutable settings object (`this.settings`). Only the
fields the engine reads are modelled. `anthropicApiKey` is optional:
`none` models an absent field. -/
structure Settings where
  ignorePatterns : List String
  anthropicApiKey : Option String
deriving DecidableEq, Repr

/-- A directory-tree node as produced by the external scanner
(`getDirectoryStructure` in `main.js`): a file with a path, or a
directory with children. -/
inductive DirItem
  | file (path : String)
  | dir (path : String) (children : List DirItem)

/-- The helper `collectFilePaths` from `handleGenerateMarkdown`: flatten a
directory tree to the list of file paths, depth first. -/
def collectFilePaths : DirItem → List String
  | .file p => [p]
  | .dir _ children => collectChildren children
where
  collectChildren : List DirItem → List String
  | [] => []
  | c :: cs => collectFilePaths c ++ collectChildren cs

/-- The `input` object of a `tools/call` request, with every field any
of the five tool handlers destructures. Absent fields are `none`. -/
structure ToolInput where
  folderPath : Option String := none
  selectedPaths : Option (List String) := none
  ignorePatterns : Option (List String) := none
  text : Option String := none
  model : Option String := none
  repoUrl : Option String := none
  securityCheck : Option Bool := none
  style : Option String := none
deriving DecidableEq, Repr

/-- The `params` object of a request: `tools/call` reads `name` and
`input`, `resources/get` reads `name`. -/
structure Params where
  name : Option String := none
  input : Option ToolInput := none
deriving DecidableEq, Repr

/-- A parsed inbound JSON-RPC message. -/
structure Message where
  jsonrpc : String
  id : Option JsonId := none
  method : Option String := none
  params : Option Params := none
deriving DecidableEq, Repr

/-- The `stats` structure produced by `calculateStats`. -/
structure Stats where
  characterCount : Nat
  openAiTokens : Int
  claudeTokens : Int
deriving DecidableEq, Repr

/-- The fixed payload of `sendInitializeResult`. -/
structure InitializePayload where
  serverName : String
  serverVersion : String
  protocolVersion : String
  capTools : Bool
  capResources : Bool
  capPrompts : Bool
  capRoots : Bool
deriving DecidableEq, Repr

/-- The literal initialize payload from `sendInitializeResult`. -/
def initializePayload : InitializePayload :=
  { serverName := "Markdown Generator MCP Server"
    serverVersion := "1.0.0"
    protocolVersion := "0.1"
    capTools := true
    capResources := true
    capPrompts := false
    capRoots := false }

/-- The value a successful tool handler returns (wrapped by
`handleToolsCall` as `{ result }`). -/
inductive ToolResult
  | genMarkdown (markdownContent : String) (stats : Stats)
  | packed (content : String) (stats : Stats)
  | countTokens (stats : Stats)
  | dirStructure (d : DirItem)

/-- The `result` payload of a success response, one shape per method.
`toolResult` models the `{ result: <tool value> }` wrapper of
`handleToolsCall`; `toolsList` carries the five descriptor names (the
static schemas of the descriptors are not inspected by any claim and
are elided); `content` is the settings copy of `resources/get`. -/
inductive ResultVal
  | initData (p : InitializePayload)
  | emptyObj
  | toolsList (names : List String)
  | toolResult (r : ToolResult)
  | resourcesList (names : List String)
  | content (s : Settings)

/-- An outbound JSON-RPC response: success or error. `id` is optional
because the engine echoes `message.id` even when absent. -/
inductive Response
  | result (id : Option JsonId) (r : ResultVal)
  | error (id : Option JsonId) (code : Int) (msg : String)

/-- The id carried by a response. -/
def Response.rid : Response → Option JsonId
  | .result i _ => i
  | .error i _ _ => i

/-- The error code of a response, `none` for a success result. -/
def Response.errorCode : Response → Option Int
  | .result _ _ => none
  | .error _ c _ => some c

/-- Whether a response is a success result. -/
def Response.isResult : Response → Bool
  | .result _ _ => true
  | .error _ _ _ => false

/-- The external collaborators and libraries the engine calls, as
abstract functions. `tiktokenEncode` stands for
`getEncoding(encoding).encode(text).length` (failing when tiktoken is
unavailable or throws); `claudeApi` stands for the Anthropic tokenize
HTTP call, returning `response.data.tokens` when present. -/
structure Env where
  tiktokenEncode : String → String → Except String Nat
  claudeApi : String → String → Except String (Option (List Nat))
  getDirectoryStructure : String → List String → Except String DirItem
  generateMarkdownContent : String → List String → Except String String
  processRemoteRepository : String → Bool → String → Except String String
  processLocalRepositoryWithSecurity : String → String → Except String String
  repoMixInitialized : Bool

/-! ## Token counters (`src/unnamed/part_003`) -/

/-- The `modelToEncoding` table of `countOpenAITokens`, with the
`|| "cl100k_base"` default. -/
def modelToEncoding (model : String) : String :=
  match model with
  | "gpt-4o" => "cl100k_base"
  | "gpt-4" => "cl100k_base"
  | "gpt-3.5-turbo" => "cl100k_base"
  | "text-embedding-ada-002" => "cl100k_base"
  | "gpt-3" => "p50k_base"
  | "text-davinci-003" => "p50k_base"
  | "text-davinci-002" => "p50k_base"
  | "davinci" => "p50k_base"
  | _ => "cl100k_base"

/-- Source `countOpenAITokens`: encode with the mapped encoding; any failure
(including tiktoken missing) yields `-1`. -/
def countOpenAITokens (env : Env) (text model : String) : Int :=
  match env.tiktokenEncode (modelToEncoding model) text with
  | .ok n => (n : Int)
  | .error _ => -1

/-- Source `countClaudeTokensApprox`: `Math.ceil(text.length / 4)`. -/
def countClaudeTokensApprox (text : String) : Int :=
  ((text.length + 3) / 4 : Nat)

/-- Source `countClaudeTokensWithAPI`: missing key, missing `tokens` in the
response, or any error all fall back to the approximation. -/
def countClaudeTokensWithAPI (env : Env) (text apiKey : String) : Int :=
  if apiKey = "" then countClaudeTokensApprox text
  else
    match env.claudeApi apiKey text with
    | .ok (some tokens) => (tokens.length : Int)
    | .ok none => countClaudeTokensApprox text
    | .error _ => countClaudeTokensApprox text

/-! ## `calculateStats` and the tool handlers (`src/mcp-server.js`) -/

/-- Source `calculateStats`: character count, OpenAI tokens with the fixed
`"gpt-4o"` model, and Claude tokens via the API when a key is
configured, else the approximation. -/
def calculateStats (env : Env) (s : Settings) (text : String) : Stats :=
  { characterCount := text.length
    openAiTokens := countOpenAITokens env text "gpt-4o"
    claudeTokens :=
      if optStrTruthy s.anthropicApiKey then
        countClaudeTokensWithAPI env text (s.anthropicApiKey.getD "")
      else
        countClaudeTokensApprox text }

/-- The TypeError message thrown by destructuring an `undefined`
`input` object (`const \x7b f \x7d = input` with `input === undefined`). -/
def destructureFail (field : String) : String :=
  "Cannot destructure property " ++ field ++ " of undefined"

/-- Source `handleCountTokens`: requires a truthy `text`; the optional
`model` is destructured but never used. -/
def handleCountTokens (env : Env) (s : Settings) (input : Option ToolInput) :
    Except String ToolResult :=
  match input with
  | none => .error (destructureFail "text")
  | some inp =>
    if ¬ optStrTruthy inp.text then .error "text is required"
    else .ok (.countTokens (calculateStats env s (inp.text.getD "")))

/-- Source `handleGetDirectoryStructure`: requires a truthy `folderPath`; a
supplied `ignorePatterns` array is used for this call only (shared
settings are not mutated). -/
def handleGetDirectoryStructure (env : Env) (s : Settings)
    (input : Option ToolInput) : Except String ToolResult :=
  match input with
  | none => .error (destructureFail "folderPath")
  | some inp =>
    if ¬ optStrTruthy inp.folderPath then .error "folderPath is required"
    else
      let patternsToUse := inp.ignorePatterns.getD s.ignorePatterns
      match env.getDirectoryStructure (inp.folderPath.getD "") patternsToUse with
      | .ok d => .ok (.dirStructure d)
      | .error e => .error e

/-- Source `handleGenerateMarkdown`, run sequentially. Returns the handler
outcome and the settings object after the `finally` block. When an
`ignorePatterns` override is supplied it is installed into the shared
settings, the body runs against the overridden settings, and the
`finally` block restores the saved copy whether the body succeeded or
threw. -/
def handleGenerateMarkdown (env : Env) (s : Settings)
    (input : Option ToolInput) : Except String ToolResult × Settings :=
  match input with
  | none => (.error (destructureFail "folderPath"), s)
  | some inp =>
    if ¬ optStrTruthy inp.folderPath then (.error "folderPath is required", s)
    else
      let folderPath := inp.folderPath.getD ""
      -- `let originalIgnorePatterns; if (ignorePatterns) { save; install }`
      let saved : Option (List String) × Settings :=
        match inp.ignorePatterns with
        | some ps => (some s.ignorePatterns, { s with ignorePatterns := ps })
        | none => (none, s)
      let orig := saved.1
      let s1 := saved.2
      -- try-block body, evaluated against the (possibly overridden) s1
      let body : Except String ToolResult :=
        match
          (match inp.selectedPaths with
           | some ps => .ok ps
           | none =>
             match env.getDirectoryStructure folderPath s1.ignorePatterns with
             | .ok tree => .ok (collectFilePaths tree)
             | .error e => .error e : Except String (List String))
        with
        | .error e => .error e
        | .ok pathsToProcess =>
          match env.generateMarkdownContent folderPath pathsToProcess with
          | .error e => .error e
          | .ok md => .ok (.genMarkdown md (calculateStats env s1 md))
      -- finally: `if (ignorePatterns && originalIgnorePatterns) restore`
      let s2 :=
        match inp.ignorePatterns, orig with
        | some _, some o => { s1 with ignorePatterns := o }
        | _, _ => s1
      (body, s2)

/-- Source `handlePackRemoteRepository`: fails if the RepoMix integration is
absent, then requires a truthy `repoUrl`; collaborator failures are
wrapped. -/
def handlePackRemoteRepository (env : Env) (s : Settings)
    (input : Option ToolInput) : Except String ToolResult :=
  if ¬ env.repoMixInitialized then .error "RepoMix integration not initialized"
  else
    match input with
    | none => .error (destructureFail "repoUrl")
    | some inp =>
      if ¬ optStrTruthy inp.repoUrl then .error "Missing repoUrl parameter"
      else
        match env.processRemoteRepository (inp.repoUrl.getD "")
            (inp.securityCheck.getD false) (inp.style.getD "markdown") with
        | .ok content => .ok (.packed content (calculateStats env s content))
        | .error e => .error ("Error processing remote repository: " ++ e)

/-- Source `handleProcessWithSecurity`: fails if the RepoMix integration is
absent, then requires a truthy `folderPath`. -/
def handleProcessWithSecurity (env : Env) (s : Settings)
    (input : Option ToolInput) : Except String ToolResult :=
  if ¬ env.repoMixInitialized then .error "RepoMix integration not initialized"
  else
    match input with
    | none => .error (destructureFail "folderPath")
    | some inp =>
      if ¬ optStrTruthy inp.folderPath then .error "Missing folderPath parameter"
      else
        match env.processLocalRepositoryWithSecurity (inp.folderPath.getD "")
            (inp.style.getD "markdown") with
        | .ok content => .ok (.packed content (calculateStats env s content))
        | .error e => .error ("Error processing with security: " ++ e)

/-! ## Dispatcher (`handleJsonRpcMessage` and the per-method cases) -/

/-- The five registered tool names, in the order of the `switch` in
`handleToolsCall` (identical to the descriptor order of
`handleToolsList`). -/
def registeredToolNames : List String :=
  ["generate_markdown", "pack_remote_repository", "process_with_security",
   "count_tokens", "get_directory_structure"]

/-- The result/catch boundary of `handleToolsCall`: a returned value
is wrapped as `\x7b result \x7d`, a thrown error becomes the `-32603`
response. -/
def wrapToolOutcome (id : Option JsonId) : Except String ToolResult → Response
  | .ok v => .result id (.toolResult v)
  | .error e => .error id (-32603) ("Error handling tool call: " ++ e)

/-- Source `handleToolsCall`: missing `name` is a `-32602`; an unregistered
name is a `-32601` carrying the tool name; a registered tool runs and
its thrown error becomes a `-32603`. Returns the response and the
settings after the call (only `generate_markdown` can change them). -/
def handleToolsCall (env : Env) (s : Settings) (msg : Message) :
    Response × Settings :=
  let params := msg.params.getD {}
  if ¬ optStrTruthy params.name then
    (.error msg.id (-32602) "Missing tool name", s)
  else
    let name := params.name.getD ""
    if name = "generate_markdown" then
      let out := handleGenerateMarkdown env s params.input
      (wrapToolOutcome msg.id out.1, out.2)
    else if name = "pack_remote_repository" then
      (wrapToolOutcome msg.id (handlePackRemoteRepository env s params.input), s)
    else if name = "process_with_security" then
      (wrapToolOutcome msg.id (handleProcessWithSecurity env s params.input), s)
    else if name = "count_tokens" then
      (wrapToolOutcome msg.id (handleCountTokens env s params.input), s)
    else if name = "get_directory_structure" then
      (wrapToolOutcome msg.id (handleGetDirectoryStructure env s params.input), s)
    else
      (.error msg.id (-32601) ("Unknown tool: " ++ name), s)

/-- The redaction applied by `handleResourcesGet` to the shallow copy
`\x7b ...this.settings \x7d` of the settings: a truthy
`anthropicApiKey` is replaced (by the source's inner ternary) with
`"[REDACTED]"`. -/
def redactSettings (s : Settings) : Settings :=
  if optStrTruthy s.anthropicApiKey then
    let redacted := if optStrTruthy s.anthropicApiKey then "[REDACTED]" else ""
    { s with anthropicApiKey := some redacted }
  else s

/-- Source `handleResourcesGet`: missing `name` is a `-32602`; `"settings"`
returns the redacted copy; any other name is a `-32602` carrying the
resource name. The shared settings are returned unchanged (the handler
only builds a copy). -/
def handleResourcesGet (s : Settings) (msg : Message) :
    Response × Settings :=
  let params := msg.params.getD {}
  if ¬ optStrTruthy params.name then
    (.error msg.id (-32602) "Missing resource name", s)
  else
    let name := params.name.getD ""
    if name = "settings" then
      (.result msg.id (.content (redactSettings s)), s)
    else
      (.error msg.id (-32602) ("Unknown resource: " ++ name), s)

/-- The engine state threaded through the dispatcher: the shared
settings object and the `nextId` counter used by the server-initiated
initialize push. -/
structure ServerState where
  settings : Settings
  nextId : Int
deriving DecidableEq, Repr

/-- Source `sendInitializeResult(id = null)`: the response id is
`id || this.getNextId()`, so a falsy caller id (absent, `0` or `""`)
is replaced by the synthesized counter value, which is consumed only
in that case. -/
def sendInitializeResult (st : ServerState) (id : Option JsonId) :
    Response × ServerState :=
  let chosen : JsonId × ServerState :=
    match id with
    | some i =>
      if i.truthy then (i, st)
      else (.num st.nextId, { st with nextId := st.nextId + 1 })
    | none => (.num st.nextId, { st with nextId := st.nextId + 1 })
  (.result (some chosen.1) (.initData initializePayload), chosen.2)

/-- Source `handleJsonRpcMessage`: reject a non-`"2.0"` envelope with
`-32600` before any dispatch; ignore messages without a truthy
`method`; route the six known methods; answer anything else with
`-32601`. Produces the list of responses written (always zero or one)
and the updated engine state. -/
def handleJsonRpcMessage (env : Env) (st : ServerState) (msg : Message) :
    List Response × ServerState :=
  if msg.jsonrpc ≠ "2.0" then
    ([.error msg.id (-32600) "Invalid Request"], st)
  else if ¬ optStrTruthy msg.method then ([], st)
  else
    let m := msg.method.getD ""
    if m = "initialize" then
      let out := sendInitializeResult st msg.id
      ([out.1], out.2)
    else if m = "shutdown" then
      ([.result msg.id .emptyObj], st)
    else if m = "tools/list" then
      ([.result msg.id (.toolsList registeredToolNames)], st)
    else if m = "tools/call" then
      let out := handleToolsCall env st.settings msg
      ([out.1], { st with settings := out.2 })
    else if m = "resources/list" then
      ([.result msg.id (.resourcesList ["settings"])], st)
    else if m = "resources/get" then
      let out := handleResourcesGet st.settings msg
      ([out.1], { st with settings := out.2 })
    else
      ([.error msg.id (-32601) ("Method not found: " ++ m)], st)

/-- The six methods of the dispatch table. -/
def supportedMethods : List String :=
  ["initialize", "shutdown", "tools/list", "tools/call",
   "resources/list", "resources/get"]

/-! ## Concurrency model for `handleGenerateMarkdown`

The engine is single-threaded and event-driven: a handler runs
uninterrupted between `await` points, and other in-flight handlers may
only be scheduled at those points. `handleGenerateMarkdown`, called
with an `ignorePatterns` override and no `selectedPaths`, has these
atomic segments (awaits in the source marked):

1. synchronous prefix: save `originalIgnorePatterns`, install the
   override into the shared settings, and invoke the scanner with the
   value read back from `this.settings.ignorePatterns`
   (`await getDirectoryStructure` suspends only after the argument is
   read);
2. scan resolved: flatten the tree and invoke the assembler
   (`await generateMarkdownContent`);
3. assembler resolved: compute stats (`await calculateStats`);
4. stats resolved: the `finally` block restores the saved copy.

A failing collaborator only shortens the path between segments 2-4 and
runs the same `finally`; it cannot change the scan argument, which is
fixed in segment 1. Two in-flight calls are modelled as two such step
machines over the shared `ignorePatterns` cell, interleaved by an
arbitrary schedule. -/

namespace Conc

/-- Program counter of one in-flight `handleGenerateMarkdown`:
which `await` the handler is suspended at. -/
inductive PC
  | install
  | scanPending
  | genPending
  | statsPending
  | done
deriving DecidableEq, Repr

/-- The request-local state of one in-flight call: its override
`patterns`, the saved `originalIgnorePatterns` (`none` until segment 1
runs), the argument its scanner invocation received (`none` until the
scan is invoked), and the program counter. -/
structure Handler where
  patterns : List String
  orig : Option (List String)
  scanArg : Option (List String)
  pc : PC
deriving DecidableEq, Repr

/-- One atomic segment of a handler, acting on the shared
`settings.ignorePatterns` cell `g`. -/
def hstep (g : List String) (h : Handler) : List String × Handler :=
  match h.pc with
  | .install =>
    -- originalIgnorePatterns = [...settings.ignorePatterns];
    -- settings.ignorePatterns = ignorePatterns;
    -- getDirectoryStructure(folderPath, settings.ignorePatterns)
    let g1 := h.patterns
    (g1, { h with orig := some g, scanArg := some g1, pc := .scanPending })
  | .scanPending => (g, { h with pc := .genPending })
  | .genPending => (g, { h with pc := .statsPending })
  | .statsPending =>
    -- finally: settings.ignorePatterns = originalIgnorePatterns
    (h.orig.getD g, { h with pc := .done })
  | .done => (g, h)

/-- The interleaved system: the shared `ignorePatterns` cell and the
two in-flight calls. -/
structure Sys where
  g : List String
  a : Handler
  b : Handler
deriving DecidableEq, Repr

/-- Run one atomic segment of handler `a` (when `who` is `true`) or
`b` (when `who` is `false`). -/
def stepSys (s : Sys) (who : Bool) : Sys :=
  if who then
    let out := hstep s.g s.a
    { s with g := out.1, a := out.2 }
  else
    let out := hstep s.g s.b
    { s with g := out.1, b := out.2 }

/-- Run the system under a schedule of handler turns. -/
def run (s : Sys) : List Bool → Sys
  | [] => s
  | w :: ws => run (stepSys s w) ws

/-- Both calls just dispatched: shared patterns `g0`, call `a` with
override `pa`, call `b` with override `pb`. -/
def init (g0 pa pb : List String) : Sys :=
  { g := g0
    a := { patterns := pa, orig := none, scanArg := none, pc := .install }
    b := { patterns := pb, orig := none, scanArg := none, pc := .install }
    }

end Conc

/-! ## Concrete instances used by witnesses and counterexamples -/

/-- A concrete collaborator environment: tiktoken present, no network,
a one-file scanner result, assembler concatenating the paths. -/
def env0 : Env :=
  { tiktokenEncode := fun _ text => .ok (text.length / 4 + 1)
    claudeApi := fun _ _ => .error "network unavailable"
    getDirectoryStructure := fun p _ => .ok (.dir p [.file (p ++ "/index.js")])
    generateMarkdownContent := fun _ ps => .ok (String.intercalate "\n" ps)
    processRemoteRepository := fun _ _ _ => .ok "packed output"
    processLocalRepositoryWithSecurity := fun _ _ => .ok "secure output"
    repoMixInitialized := true }

/-- Concrete settings with no credential configured. -/
def s0 : Settings := { ignorePatterns := ["node_modules"], anthropicApiKey := none }

/-- Fresh engine state over `s0` (`nextId` starts at 1 in the
constructor). -/
def st0 : ServerState := { settings := s0, nextId := 1 }

/-! ## Helper lemmas -/

/-- The result/catch wrapper preserves the request id. -/
theorem wrapToolOutcome_rid (id : Option JsonId) (e : Except String ToolResult) :
    (wrapToolOutcome id e).rid = id := by
  cases e <;> rfl

/-- Every branch of `handleToolsCall` answers with the request's own
id. -/
theorem handleToolsCall_rid (env : Env) (s : Settings) (msg : Message) :
    ((handleToolsCall env s msg).1).rid = msg.id := by
  unfold handleToolsCall
  dsimp only
  split_ifs <;> first | exact wrapToolOutcome_rid _ _ | rfl

/-- Every branch of `handleResourcesGet` answers with the request's
own id. -/
theorem handleResourcesGet_rid (s : Settings) (msg : Message) :
    ((handleResourcesGet s msg).1).rid = msg.id := by
  unfold handleResourcesGet
  dsimp only
  split_ifs <;> simp [Response.rid]

/-! ## Claims -/

/-- C6: for every incoming message whose `jsonrpc` field is not
`"2.0"`, the engine replies with exactly the `-32600` error response
(hence never a success result), leaves the state untouched, and the
reply does not depend on the collaborator environment or on the
message's method — no handler is dispatched. -/
theorem c6_invalid_jsonrpc_rejected (env : Env) (st : ServerState)
    (msg : Message) (h : msg.jsonrpc ≠ "2.0") :
    handleJsonRpcMessage env st msg =
      ([.error msg.id (-32600) "Invalid Request"], st) := by
  unfold handleJsonRpcMessage
  simp [h]

/-- Witness for C6 at a concrete `jsonrpc: "1.0"` message. -/
theorem c6_invalid_jsonrpc_rejected_witness :
    handleJsonRpcMessage env0 st0
        { jsonrpc := "1.0", id := some (.num 3), method := some "tools/list" } =
      ([.error (some (.num 3)) (-32600) "Invalid Request"], st0) :=
  c6_invalid_jsonrpc_rejected env0 st0 _ (by decide)

/-- C2 counterexample: a `resources/get` for the unknown resource
`"config"` is answered with error code `-32602`, not `-32601` as the
claim states. -/
theorem c2_counterexample :
    ((handleJsonRpcMessage env0 st0
        { jsonrpc := "2.0", id := some (.num 1), method := some "resources/get",
          params := some { name := some "config" } }).1.map Response.errorCode
      = [some (-32602)])
    ∧ ((handleJsonRpcMessage env0 st0
        { jsonrpc := "2.0", id := some (.num 1), method := some "resources/get",
          params := some { name := some "config" } }).1.map Response.errorCode
      ≠ [some (-32601)]) := by
  constructor <;> decide

/-- C2 (amended): for every `resources/get` whose `params.name` is
present but not `"settings"`, the reply is the `-32602` error carrying
the resource name; the settings are neither read (the reply is the
same for every settings value) nor modified. -/
theorem c2_unknown_resource_code (s : Settings) (msg : Message) (n : String)
    (hp : (msg.params.getD {}).name = some n)
    (hn : n ≠ "settings") (hne : n ≠ "") :
    handleResourcesGet s msg =
      (.error msg.id (-32602) ("Unknown resource: " ++ n), s) := by
  unfold handleResourcesGet
  simp [hp, optStrTruthy, hne, hn]

/-- Witness for C2's amended statement at resource name `"config"`. -/
theorem c2_unknown_resource_code_witness :
    handleResourcesGet s0
        { jsonrpc := "2.0", id := some (.num 9), method := some "resources/get",
          params := some { name := some "config" } } =
      (.error (some (.num 9)) (-32602) ("Unknown resource: " ++ "config"), s0) :=
  c2_unknown_resource_code s0 _ "config" rfl (by decide) (by decide)

/-- C7: a `tools/call` whose `params.name` is present but not one of
the five registered tool names is answered with the `-32601` error
carrying the tool name; the reply is the same for every collaborator
environment (no collaborator is invoked) and the settings are
unchanged. -/
theorem c7_unknown_tool_rejected (env : Env) (s : Settings) (msg : Message)
    (name : String) (hp : (msg.params.getD {}).name = some name)
    (hmem : name ∉ registeredToolNames) (hne : name ≠ "") :
    handleToolsCall env s msg =
      (.error msg.id (-32601) ("Unknown tool: " ++ name), s) := by
  simp [registeredToolNames] at hmem
  obtain ⟨h1, h2, h3, h4, h5⟩ := hmem
  unfold handleToolsCall
  simp [hp, optStrTruthy, hne, h1, h2, h3, h4, h5]

/-- Witness for C7 at the unregistered tool name `"delete_repo"`. -/
theorem c7_unknown_tool_rejected_witness :
    handleToolsCall env0 s0
        { jsonrpc := "2.0", id := some (.num 4), method := some "tools/call",
          params := some { name := some "delete_repo" } } =
      (.error (some (.num 4)) (-32601) ("Unknown tool: " ++ "delete_repo"), s0) :=
  c7_unknown_tool_rejected env0 s0 _ "delete_repo" rfl (by decide) (by decide)

/-- C4: a `generate_markdown` call (run in isolation) that supplies an
`ignorePatterns` override leaves the shared settings' `ignorePatterns`
with its pre-call value — the `finally` restore runs both when the
body succeeds and when any collaborator fails, which the quantification
over every environment `env` covers. -/
theorem c4_override_restored (env : Env) (s : Settings) (inp : ToolInput)
    (ps : List String) (hov : inp.ignorePatterns = some ps) :
    ((handleGenerateMarkdown env s (some inp)).2).ignorePatterns =
      s.ignorePatterns := by
  unfold handleGenerateMarkdown
  dsimp only
  split_ifs <;> simp [hov]

/-- Witness for C4: a concrete override call against `env0` (whose
collaborators succeed) restores `s0.ignorePatterns`. -/
theorem c4_override_restored_witness :
    ((handleGenerateMarkdown env0 s0
        (some { folderPath := some "/repo", ignorePatterns := some ["dist"] })).2).ignorePatterns
      = ["node_modules"] :=
  c4_override_restored env0 s0
    { folderPath := some "/repo", ignorePatterns := some ["dist"] } ["dist"] rfl

/-- C5: with a non-empty credential configured, `resources/get` for
`"settings"` answers with the settings copy whose credential is the
fixed marker `"[REDACTED]"`; the live settings object is unchanged;
and the reply is identical for any two configured credentials, so the
raw value cannot be observed from it. -/
theorem c5_credential_redacted (s : Settings) (msg : Message) (k k' : String)
    (hk : k ≠ "") (hk' : k' ≠ "")
    (hname : (msg.params.getD {}).name = some "settings") :
    (handleResourcesGet { s with anthropicApiKey := some k } msg).1 =
        .result msg.id (.content { s with anthropicApiKey := some "[REDACTED]" })
      ∧ (handleResourcesGet { s with anthropicApiKey := some k } msg).2 =
        { s with anthropicApiKey := some k }
      ∧ (handleResourcesGet { s with anthropicApiKey := some k } msg).1 =
        (handleResourcesGet { s with anthropicApiKey := some k' } msg).1 := by
  unfold handleResourcesGet redactSettings
  simp [hname, optStrTruthy, hk, hk']

/-- Witness for C5 with credential `"sk-secret"` versus
`"sk-other"`. -/
theorem c5_credential_redacted_witness :
    (handleResourcesGet { s0 with anthropicApiKey := some "sk-secret" }
        { jsonrpc := "2.0", id := some (.num 6), method := some "resources/get",
          params := some { name := some "settings" } }).1 =
        .result (some (.num 6))
          (.content { s0 with anthropicApiKey := some "[REDACTED]" })
      ∧ (handleResourcesGet { s0 with anthropicApiKey := some "sk-secret" }
          { jsonrpc := "2.0", id := some (.num 6), method := some "resources/get",
            params := some { name := some "settings" } }).2 =
        { s0 with anthropicApiKey := some "sk-secret" }
      ∧ (handleResourcesGet { s0 with anthropicApiKey := some "sk-secret" }
          { jsonrpc := "2.0", id := some (.num 6), method := some "resources/get",
            params := some { name := some "settings" } }).1 =
        (handleResourcesGet { s0 with anthropicApiKey := some "sk-other" }
          { jsonrpc := "2.0", id := some (.num 6), method := some "resources/get",
            params := some { name := some "settings" } }).1 :=
  c5_credential_redacted s0 _ "sk-secret" "sk-other" (by decide) (by decide) rfl

/-- Natural division `(n + 3) / 4` is the ceiling of `n / 4`. -/
theorem nat_add_three_div_four_eq_ceil (n : ℕ) :
    (((n + 3) / 4 : ℕ) : ℤ) = ⌈(n : ℚ) / 4⌉ := by
  have hdm := Nat.div_add_mod (n + 3) 4
  have hlt : (n + 3) % 4 < 4 := Nat.mod_lt _ (by norm_num)
  have h1 : n ≤ 4 * ((n + 3) / 4) := by omega
  have h2 : 4 * ((n + 3) / 4) ≤ n + 3 := by omega
  have h1q : ((n : ℚ)) ≤ ((4 * ((n + 3) / 4) : ℕ) : ℚ) := Nat.cast_le.2 h1
  have h2q : ((4 * ((n + 3) / 4) : ℕ) : ℚ) ≤ ((n + 3 : ℕ) : ℚ) := Nat.cast_le.2 h2
  push_cast at h1q h2q
  rw [eq_comm, Int.ceil_eq_iff]
  constructor
  · rw [lt_div_iff₀ (by norm_num : (0 : ℚ) < 4)]
    simp only [Int.cast_natCast]
    linarith
  · rw [div_le_iff₀ (by norm_num : (0 : ℚ) < 4)]
    simp only [Int.cast_natCast]
    linarith

/-- C8: with no credential configured (absent or empty), the
`claudeTokens` stat is `Math.ceil(text.length / 4)` — the natural
division `(len + 3) / 4`, which equals the exact ceiling of
`len / 4`. -/
theorem c8_claude_tokens_approx (env : Env) (s : Settings) (text : String)
    (hk : optStrTruthy s.anthropicApiKey = false) :
    (calculateStats env s text).claudeTokens = (((text.length + 3) / 4 : ℕ) : ℤ)
      ∧ (calculateStats env s text).claudeTokens = ⌈(text.length : ℚ) / 4⌉ := by
  have hbase : (calculateStats env s text).claudeTokens =
      (((text.length + 3) / 4 : ℕ) : ℤ) := by
    unfold calculateStats countClaudeTokensApprox
    simp [hk]
  exact ⟨hbase, hbase.trans (nat_add_three_div_four_eq_ceil text.length)⟩

/-- Witness for C8 on the text `"hello"` against `s0` (no key). -/
theorem c8_claude_tokens_approx_witness :
    (calculateStats env0 s0 "hello").claudeTokens =
        ((("hello".length + 3) / 4 : ℕ) : ℤ)
      ∧ (calculateStats env0 s0 "hello").claudeTokens =
        ⌈(("hello".length : ℕ) : ℚ) / 4⌉ :=
  c8_claude_tokens_approx env0 s0 "hello" (by decide)

/-- C9: a `tools/call` of `count_tokens` with a non-empty `text`
produces exactly one success response carrying the stats of that text
wrapped as `result.result.stats`, and `stats.characterCount` is the
raw length of the text. -/
theorem c9_character_count (env : Env) (st : ServerState) (i : JsonId)
    (inp : ToolInput) (t : String) (ht : inp.text = some t) (hne : t ≠ "") :
    handleJsonRpcMessage env st
        { jsonrpc := "2.0", id := some i, method := some "tools/call",
          params := some { name := some "count_tokens", input := some inp } } =
        ([.result (some i)
            (.toolResult (.countTokens (calculateStats env st.settings t)))], st)
      ∧ (calculateStats env st.settings t).characterCount = t.length := by
  refine ⟨?_, rfl⟩
  unfold handleJsonRpcMessage handleToolsCall handleCountTokens wrapToolOutcome
  simp [ht, optStrTruthy, hne]

/-- Witness for C9: the spec scenario — `count_tokens` on `"hello"`
with id 2 yields `characterCount = 5`. -/
theorem c9_character_count_witness :
    handleJsonRpcMessage env0 st0
        { jsonrpc := "2.0", id := some (.num 2), method := some "tools/call",
          params := some { name := some "count_tokens",
                           input := some { text := some "hello" } } } =
        ([.result (some (.num 2))
            (.toolResult (.countTokens (calculateStats env0 st0.settings "hello")))], st0)
      ∧ (calculateStats env0 st0.settings "hello").characterCount = 5 :=
  c9_character_count env0 st0 (.num 2) { text := some "hello" } "hello" rfl
    (by decide)

/-- C10: the `count_tokens` reply is independent of the optional
`model` parameter — two requests identical up to `model` (any two
values, absent included) get identical responses and identical final
states, because `handleCountTokens` never uses `model` and
`calculateStats` fixes the `"gpt-4o"` encoding. -/
theorem c10_model_independent (env : Env) (st : ServerState)
    (i : Option JsonId) (inp : ToolInput) (m1 m2 : Option String) :
    handleJsonRpcMessage env st
        { jsonrpc := "2.0", id := i, method := some "tools/call",
          params := some { name := some "count_tokens",
                           input := some { inp with model := m1 } } } =
      handleJsonRpcMessage env st
        { jsonrpc := "2.0", id := i, method := some "tools/call",
          params := some { name := some "count_tokens",
                           input := some { inp with model := m2 } } } := by
  rfl

/-- C1 counterexample: an `initialize` request with the caller-supplied
id `0` (falsy in JS) is answered with the synthesized id `1`
(`id || this.getNextId()` in `sendInitializeResult`), not with the
caller's id — so the engine does substitute a synthesized id for a
caller-supplied one outside the server-initiated push. -/
theorem c1_counterexample :
    ((handleJsonRpcMessage env0 st0
        { jsonrpc := "2.0", id := some (.num 0),
          method := some "initialize" }).1.map Response.rid
      = [some (.num 1)])
    ∧ ((handleJsonRpcMessage env0 st0
        { jsonrpc := "2.0", id := some (.num 0),
          method := some "initialize" }).1.map Response.rid
      ≠ [some (.num 0)]) := by
  constructor <;> decide

/-- C1 (amended): every well-formed request (`jsonrpc` `"2.0"`, a
method from the supported table, a caller-supplied id) gets exactly one
response carrying the request's own id, provided that for the
`initialize` method the id is truthy (a nonzero number or a non-empty
string); an `initialize` request with id `0` or `""` instead receives
a synthesized id. -/
theorem c1_response_id_echoed (env : Env) (st : ServerState) (msg : Message)
    (i : JsonId) (m : String) (hj : msg.jsonrpc = "2.0")
    (hid : msg.id = some i) (hm : msg.method = some m)
    (hmem : m ∈ supportedMethods)
    (hinit : m = "initialize" → i.truthy = true) :
    (handleJsonRpcMessage env st msg).1.map Response.rid = [some i] := by
  simp only [supportedMethods, List.mem_cons, List.not_mem_nil, or_false] at hmem
  unfold handleJsonRpcMessage
  rcases hmem with rfl | rfl | rfl | rfl | rfl | rfl
  · have htr := hinit rfl
    simp [hj, hm, hid, optStrTruthy, sendInitializeResult, htr, Response.rid]
  · simp [hj, hm, hid, optStrTruthy, Response.rid]
  · simp [hj, hm, hid, optStrTruthy, Response.rid]
  · simp [hj, hm, hid, optStrTruthy, handleToolsCall_rid]
  · simp [hj, hm, hid, optStrTruthy, Response.rid]
  · simp [hj, hm, hid, optStrTruthy, handleResourcesGet_rid]

/-- Witness for C1's amended statement: `initialize` with the truthy
id 5 is answered once, with id 5. -/
theorem c1_response_id_echoed_witness :
    (handleJsonRpcMessage env0 st0
        { jsonrpc := "2.0", id := some (.num 5),
          method := some "initialize" }).1.map Response.rid
      = [some (.num 5)] :=
  c1_response_id_echoed env0 st0 _ (.num 5) "initialize" rfl rfl rfl
    (by decide) (fun _ => by decide)

namespace Conc

/-- Invariant of one in-flight call with override `p`: its override is
`p` and its scan argument is either already recorded as `p` or not yet
recorded because segment 1 has not run. -/
def inv (p : List String) (h : Handler) : Prop :=
  h.patterns = p ∧ (h.scanArg = some p ∨ (h.scanArg = none ∧ h.pc = .install))

/-- One step of a handler preserves its invariant. -/
theorem hstep_inv (p : List String) (g : List String) (h : Handler)
    (hI : inv p h) : inv p (hstep g h).2 := by
  obtain ⟨hp, hca⟩ := hI
  rcases hca with hs | ⟨hs, hpcInstall⟩
  · cases hpc : h.pc <;> simp [hstep, hpc, inv, hp, hs]
  · simp [hstep, hpcInstall, inv, hp]

/-- After a handler satisfying the invariant takes a step, its scan
argument is recorded and equals its own override. -/
theorem hstep_sets (p : List String) (g : List String) (h : Handler)
    (hI : inv p h) : ((hstep g h).2).scanArg = some p := by
  obtain ⟨hp, hca⟩ := hI
  rcases hca with hs | ⟨hs, hpcInstall⟩
  · cases hpc : h.pc <;> simp [hstep, hpc, hs, hp]
  · simp [hstep, hpcInstall, hp]

/-- A recorded scan argument is never rewritten by later steps. -/
theorem hstep_keeps (p : List String) (g : List String) (h : Handler)
    (hJ : h.patterns = p ∧ h.scanArg = some p) :
    (hstep g h).2.patterns = p ∧ (hstep g h).2.scanArg = some p := by
  obtain ⟨hp, hs⟩ := hJ
  cases hpc : h.pc <;> simp [hstep, hpc, hp, hs]

/-- Running any schedule preserves call `a`'s invariant. -/
theorem run_inv_a (p : List String) (sched : List Bool) :
    ∀ s : Sys, inv p s.a → inv p (run s sched).a := by
  induction sched with
  | nil => intro s h; exact h
  | cons w ws ih =>
    intro s h
    cases w
    · exact ih _ h
    · exact ih _ (hstep_inv p s.g s.a h)

/-- Running any schedule preserves call `b`'s invariant. -/
theorem run_inv_b (p : List String) (sched : List Bool) :
    ∀ s : Sys, inv p s.b → inv p (run s sched).b := by
  induction sched with
  | nil => intro s h; exact h
  | cons w ws ih =>
    intro s h
    cases w
    · exact ih _ (hstep_inv p s.g s.b h)
    · exact ih _ h

/-- Running any schedule keeps call `a`'s recorded scan argument. -/
theorem run_keeps_a (p : List String) (sched : List Bool) :
    ∀ s : Sys, s.a.patterns = p ∧ s.a.scanArg = some p →
      (run s sched).a.patterns = p ∧ (run s sched).a.scanArg = some p := by
  induction sched with
  | nil => intro s h; exact h
  | cons w ws ih =>
    intro s h
    cases w
    · exact ih _ h
    · exact ih _ (hstep_keeps p s.g s.a h)

/-- Running any schedule keeps call `b`'s recorded scan argument. -/
theorem run_keeps_b (p : List String) (sched : List Bool) :
    ∀ s : Sys, s.b.patterns = p ∧ s.b.scanArg = some p →
      (run s sched).b.patterns = p ∧ (run s sched).b.scanArg = some p := by
  induction sched with
  | nil => intro s h; exact h
  | cons w ws ih =>
    intro s h
    cases w
    · exact ih _ (hstep_keeps p s.g s.b h)
    · exact ih _ h

/-- If call `a` is scheduled at least once, its scan argument ends up
recorded as its own override. -/
theorem run_mem_a (p : List String) (sched : List Bool) :
    ∀ s : Sys, inv p s.a → true ∈ sched →
      (run s sched).a.scanArg = some p := by
  induction sched with
  | nil => intro s _ hmem; cases hmem
  | cons w ws ih =>
    intro s hI hmem
    cases w
    · have : true ∈ ws := by
        rcases List.mem_cons.1 hmem with h | h
        · cases h
        · exact h
      exact ih _ hI this
    · have hJ : (stepSys s true).a.patterns = p ∧
          (stepSys s true).a.scanArg = some p :=
        ⟨(hstep_inv p s.g s.a hI).1, hstep_sets p s.g s.a hI⟩
      exact (run_keeps_a p ws _ hJ).2

/-- If call `b` is scheduled at least once, its scan argument ends up
recorded as its own override. -/
theorem run_mem_b (p : List String) (sched : List Bool) :
    ∀ s : Sys, inv p s.b → false ∈ sched →
      (run s sched).b.scanArg = some p := by
  induction sched with
  | nil => intro s _ hmem; cases hmem
  | cons w ws ih =>
    intro s hI hmem
    cases w
    · have hJ : (stepSys s false).b.patterns = p ∧
          (stepSys s false).b.scanArg = some p :=
        ⟨(hstep_inv p s.g s.b hI).1, hstep_sets p s.g s.b hI⟩
      exact (run_keeps_b p ws _ hJ).2
    · have : false ∈ ws := by
        rcases List.mem_cons.1 hmem with h | h
        · cases h
        · exact h
      exact ih _ hI this

end Conc

/-- C3: for two concurrently in-flight `generate_markdown` calls with
overrides `pa` and `pb`, under every interleaving of their atomic
segments each call's scanner invocation observes exactly its own
override — never the other call's patterns and never a clobbered
restore — and as soon as a call has run at all, its scan argument is
its own override. -/
theorem c3_scan_sees_own_override (g0 pa pb : List String)
    (sched : List Bool) :
    (((Conc.run (Conc.init g0 pa pb) sched).a.scanArg = none ∨
        (Conc.run (Conc.init g0 pa pb) sched).a.scanArg = some pa)
      ∧ (true ∈ sched →
        (Conc.run (Conc.init g0 pa pb) sched).a.scanArg = some pa))
    ∧ (((Conc.run (Conc.init g0 pa pb) sched).b.scanArg = none ∨
        (Conc.run (Conc.init g0 pa pb) sched).b.scanArg = some pb)
      ∧ (false ∈ sched →
        (Conc.run (Conc.init g0 pa pb) sched).b.scanArg = some pb)) := by
  have hIa : Conc.inv pa (Conc.init g0 pa pb).a := by
    simp [Conc.inv, Conc.init]
  have hIb : Conc.inv pb (Conc.init g0 pa pb).b := by
    simp [Conc.inv, Conc.init]
  refine ⟨⟨?_, Conc.run_mem_a pa sched _ hIa⟩,
          ⟨?_, Conc.run_mem_b pb sched _ hIb⟩⟩
  · rcases (Conc.run_inv_a pa sched _ hIa).2 with h | ⟨h, _⟩
    · exact Or.inr h
    · exact Or.inl h
  · rcases (Conc.run_inv_b pb sched _ hIb).2 with h | ⟨h, _⟩
    · exact Or.inr h
    · exact Or.inl h

/-- Witness for C3: the hazard interleaving of §5 — `a` installs and
scans, `b` installs and scans while `a` is still in flight, both run
to completion — records each call's own override as its scan
argument. -/
theorem c3_scan_sees_own_override_witness :
    (Conc.run (Conc.init ["node_modules"] ["dist"] ["build"])
        [true, false, true, false, true, false, true, false]).a.scanArg
      = some ["dist"]
    ∧ (Conc.run (Conc.init ["node_modules"] ["dist"] ["build"])
        [true, false, true, false, true, false, true, false]).b.scanArg
      = some ["build"] :=
  ⟨(c3_scan_sees_own_override ["node_modules"] ["dist"] ["build"]
      [true, false, true, false, true, false, true, false]).1.2 (by decide),
   (c3_scan_sees_own_override ["node_modules"] ["dist"] ["build"]
      [true, false, true, false, true, false, true, false]).2.2 (by decide)⟩

end McpServer
